import Mathlib

/-
Verification of the crossword CSP solver (`generate.py`, class
`CrosswordCreator`) against its natural-language specification.

The embedding mirrors the Python source line by line.  Python sets and
dicts are modelled as lists (in deterministic insertion order), strings
as `String`, and dynamic Python errors as an explicit error type carried
in `Except`.  Mutation of `self.domains`, of `self.crossword.overlaps`
(which the source aliases and pops from), and of the attributes
`self.domains_copy` / `self.domain` is modelled by threading an explicit
state record through every method.

The `Crossword` class itself (file `crossword.py`) is not part of the
sources; the pieces of it the solver uses (variables, words, the overlap
relation and the derived neighbor relation) are modelled from the spec,
as marked below.
-/

namespace CrosswordProof

/-- Direction of a slot: ACROSS or DOWN. -/
inductive Direction
  | across
  | down
deriving DecidableEq

/-- Modelled from the spec: the `Variable` class of the missing
`crossword.py`.  A slot is identified by its starting row `i`, starting
column `j`, its `length` and its `direction`; two slots are equal iff all
four fields match. -/
structure Variable where
  i : Nat
  j : Nat
  direction : Direction
  length : Nat
deriving DecidableEq

/-- Words of the vocabulary (Python strings). -/
abbrev Word := String

/-- The domain store `self.domains`: a dict mapping each variable to a set
of candidate words, modelled as an association list in insertion order. -/
abbrev Domains := List (Variable × List Word)

/-- An assignment: a dict mapping a subset of the variables to one word
each, modelled as an association list in insertion order. -/
abbrev Assignment := List (Variable × Word)

/-- The overlap relation: a dict from ordered pairs of distinct crossing
slots to the pair of letter offsets.  Modelled from the spec: "a partial
mapping from a pair of distinct slots (x, y) to a pair of integer offsets
(p, q)"; "absence of an entry for (x, y) means the slots do not cross";
symmetric content stored as directed entries in both directions. -/
abbrev Overlaps := List ((Variable × Variable) × (Nat × Nat))

/-- The dynamic Python errors the solver can raise. -/
inductive PyErr
  | runtimeError    -- set changed size during iteration
  | valueError      -- too many values to unpack
  | typeError       -- wrong arguments to a call, or iterating a Variable
  | keyError        -- missing dict key
  | attributeError  -- reading an attribute that was never assigned
  | indexError      -- sequence index out of range
  | recursionError  -- Python recursion limit exceeded
deriving DecidableEq

/-- Modelled from the spec: the read-only data the solver receives from
`crossword.py` — the slot set, the vocabulary, and the overlap relation. -/
structure Crossword where
  -- `crossword.variables` (the name `variables` is reserved in Lean)
  vars : List Variable
  words : List Word
  overlaps : Overlaps

/-- Dict lookup in the overlap relation (`self.crossword.overlaps[x, y]`). -/
def overlapLookup (ov : Overlaps) (x y : Variable) : Option (Nat × Nat) :=
  (ov.find? (fun e => e.1 == (x, y))).map (fun e => e.2)

/-- The mutable state of a `CrosswordCreator` object.  `overlaps` starts as
the crossword overlap dict and is mutable because `ac3` aliases it as its
work queue and pops from it.  `domains_copy` and `domainAttr` model the
attributes `self.domains_copy` and `self.domain` (`none` = the attribute
was never assigned, so reading it raises AttributeError).  `randCount`
counts the draws taken from the `random` module so far. -/
structure CCState where
  domains : Domains
  overlaps : Overlaps
  domains_copy : Option Domains
  domainAttr : Option Domains
  randCount : Nat
deriving DecidableEq

/-- `__init__` (generate.py lines 9-17): each variable starts with a copy
of the full vocabulary as its domain. -/
def initState (cw : Crossword) : CCState :=
  { domains := cw.vars.map (fun v => (v, cw.words))
    overlaps := cw.overlaps
    domains_copy := none
    domainAttr := none
    randCount := 0 }

/-- Modelled from the spec: `crossword.neighbors(x)` — "the set of slots
sharing an overlap entry with a given slot".  It reads the live overlap
dict, which `ac3` can mutate. -/
def neighborsSt (cw : Crossword) (st : CCState) (x : Variable) : List Variable :=
  cw.vars.filter (fun v => (v != x) && (overlapLookup st.overlaps v x).isSome)

/-- Python dict read `d[v]`: KeyError when the key is absent. -/
def dictGet (d : Domains) (v : Variable) : Except PyErr (List Word) :=
  match d.find? (fun p => p.1 == v) with
  | some p => .ok p.2
  | none => .error .keyError

/-- Total variant of `dictGet` for stating spec properties (`[]` when the
key is absent). -/
def dictGetD (d : Domains) (v : Variable) : List Word :=
  ((d.find? (fun p => p.1 == v)).map (fun p => p.2)).getD []

/-- In-place update of the set stored under an existing key
(`self.domains[x]` after mutating the set). -/
def dictSet (d : Domains) (v : Variable) (ws : List Word) : Domains :=
  d.map (fun p => if p.1 == v then (p.1, ws) else p)

/-- Dict read on an assignment (`assignment[v]`), as an Option. -/
def assignLookup (a : Assignment) (v : Variable) : Option Word :=
  (a.find? (fun p => p.1 == v)).map (fun p => p.2)

/-- Dict write `assignment[var] = value` (generate.py line 273): update the
entry if the key exists, else append it in insertion order. -/
def assignSet (a : Assignment) (v : Variable) (w : Word) : Assignment :=
  if a.any (fun p => p.1 == v) then a.map (fun p => if p.1 == v then (v, w) else p)
  else a ++ [(v, w)]

/-- One variable of `enforce_node_consistency` (lines 103-106).  The source
iterates `self.domains[var]` — a set — and calls `remove` on that same set
inside the loop.  In Python the first removal invalidates the set
iterator, and the next step of the for loop raises
`RuntimeError: Set changed size during iteration`.  So: if every word
already has the right length nothing happens; otherwise the first
wrong-length word (in iteration order) is removed and RuntimeError is
raised. -/
def encVar (v : Variable) (ws : List Word) : Except PyErr (List Word) × Option (List Word) :=
  match ws.find? (fun w => w.length != v.length) with
  | none => (.ok ws, none)
  | some w => (.error .runtimeError, some (ws.erase w))

/-- The outer loop of `enforce_node_consistency` over the dict keys. -/
def encLoop (vars : List Variable) (st : CCState) : Except PyErr Unit × CCState :=
  match vars with
  | [] => (.ok (), st)
  | v :: rest =>
    match dictGet st.domains v with
    | .error e => (.error e, st)
    | .ok ws =>
      match encVar v ws with
      | (.ok _, _) => encLoop rest st
      | (.error e, some ws2) => (.error e, { st with domains := dictSet st.domains v ws2 })
      | (.error e, none) => (.error e, st)

/-- `enforce_node_consistency` (generate.py lines 97-106). -/
def enforce_node_consistency (st : CCState) : Except PyErr Unit × CCState :=
  encLoop (st.domains.map (fun p => p.1)) st

/-- Python string indexing `w[k]`: IndexError out of range. -/
def charAt (w : Word) (k : Nat) : Except PyErr Char :=
  if h : k < w.data.length then .ok (w.data.get ⟨k, h⟩) else .error .indexError

/-- The inner loop of `revise` (lines 123-126): scan `self.domains[y]` for
a word supporting `x_word` at the overlap offsets. -/
def hasSupport (xw : Word) (i j : Nat) : List Word → Except PyErr Bool
  | [] => .ok false
  | yw :: rest =>
    match charAt xw i with
    | .error e => .error e
    | .ok cx =>
      match charAt yw j with
      | .error e => .error e
      | .ok cy => if cx == cy then .ok true else hasSupport xw i j rest

/-- The outer loop of `revise` (lines 121-129): iterate a copy of
`self.domains[x]`, removing unsupported words from the live set.  On an
error the removals made so far persist (in-place set mutation). -/
def reviseLoop (i j : Nat) (dy : List Word) : List Word → List Word → Bool → (List Word × Bool × Option PyErr)
  | [], dx, revised => (dx, revised, none)
  | xw :: rest, dx, revised =>
    match hasSupport xw i j dy with
    | .error e => (dx, revised, some e)
    | .ok true => reviseLoop i j dy rest dx revised
    | .ok false => reviseLoop i j dy rest (dx.erase xw) true

/-- `revise` (generate.py lines 109-130).  `self.crossword.overlaps[x, y]`
raises KeyError when the pair is not in the overlap dict. -/
def revise (x y : Variable) (st : CCState) : Except PyErr Bool × CCState :=
  match overlapLookup st.overlaps x y with
  | none => (.error .keyError, st)
  | some ij =>
    match dictGet st.domains x with
    | .error e => (.error e, st)
    | .ok dx =>
      match dictGet st.domains y with
      | .error e => (.error e, st)
      | .ok dy =>
        match reviseLoop ij.1 ij.2 dy dx dx false with
        | (dx2, _, some e) => (.error e, { st with domains := dictSet st.domains x dx2 })
        | (dx2, revised, none) => (.ok revised, { st with domains := dictSet st.domains x dx2 })

/-- `ac3` (generate.py lines 134-156).

Line 143 `if not arcs:` is taken when `arcs` is None or an empty dict, in
which case line 144 binds `queue` to `self.crossword.overlaps` itself (no
copy).  Line 147 makes `queue_copy`, a shallow copy (no observable effect
below).  The while loop (line 148) runs while the queue dict is nonempty.

Line 149, `key, = queue.popitem()`, is the first statement of the loop
body: `popitem` removes the most recently inserted entry of `queue` and
returns it as a `(key, value)` pair, and unpacking that 2-tuple into the
single target `key,` then raises
`ValueError: too many values to unpack (expected 1)`.

Hence no iteration ever gets past line 149: lines 150-155 (the call to
`revise`, the empty-domain check and the re-enqueueing) are unreachable,
and `ac3` either returns True at line 156 (empty queue) or raises
ValueError — after having removed one entry from the crossword overlap
dict whenever the queue was that dict itself. -/
def ac3 (arcs : Option Overlaps) (st : CCState) : Except PyErr Bool × CCState :=
  match arcs with
  | none =>
    match st.overlaps with
    | [] => (.ok true, st)
    | _ => (.error .valueError, { st with overlaps := st.overlaps.dropLast })
  | some a =>
    if a.isEmpty then
      -- `if not arcs` is also true for an empty dict: the queue is again
      -- the crossword overlap dict itself.
      match st.overlaps with
      | [] => (.ok true, st)
      | _ => (.error .valueError, { st with overlaps := st.overlaps.dropLast })
    else
      -- the queue is the caller's dict: the pop mutates only that local.
      (.error .valueError, st)

/-- `assignment_complete` (generate.py lines 160-167): compare the entry
count of the assignment dict with the variable count. -/
def assignment_complete (cw : Crossword) (assignment : Assignment) : Bool :=
  if assignment.length == cw.vars.length then true else false

/-- The neighbor loop of `consistent` (lines 179-183).  Line 181 reads
`assignment[neighbor]` unconditionally: KeyError when the neighbor is
unassigned. -/
def consistentNbrs (st : CCState) (assignment : Assignment) (var : Variable) (wx : Word) :
    List Variable → Except PyErr Bool
  | [] => .ok true
  | n :: rest =>
    match overlapLookup st.overlaps n var with
    | none => .error .keyError
    | some ij =>
      match assignLookup assignment n with
      | none => .error .keyError
      | some wy =>
        match charAt wx ij.1 with
        | .error e => .error e
        | .ok cx =>
          match charAt wy ij.2 with
          | .error e => .error e
          | .ok cy => if cx != cy then .ok false else consistentNbrs st assignment var wx rest

/-- The outer loop of `consistent` (lines 175-183) over the assignment
entries. -/
def consistentPairs (cw : Crossword) (st : CCState) (assignment : Assignment) :
    List (Variable × Word) → Except PyErr Bool
  | [] => .ok true
  | p :: rest =>
    if p.2.length != p.1.length then .ok false
    else
      match consistentNbrs st assignment p.1 p.2 (neighborsSt cw st p.1) with
      | .error e => .error e
      | .ok false => .ok false
      | .ok true => consistentPairs cw st assignment rest

/-- `consistent` (generate.py lines 170-184). -/
def consistent (cw : Crossword) (st : CCState) (assignment : Assignment) : Except PyErr Bool :=
  consistentPairs cw st assignment assignment

/-- The innermost loop of `order_domain_values` (lines 202-204): count the
words of a neighbor domain whose overlap letter disagrees with `word1`.
The source evaluates `word1[i]` before `word2[j]` in each comparison. -/
def countWs (w1 : Word) (i j : Nat) : List Word → Nat → Except PyErr Nat
  | [], acc => .ok acc
  | w2 :: rest, acc =>
    match charAt w1 i with
    | .error e => .error e
    | .ok c1 =>
      match charAt w2 j with
      | .error e => .error e
      | .ok c2 => countWs w1 i j rest (if c1 != c2 then acc + 1 else acc)

/-- Conflict count contributed by one unassigned neighbor (lines 200-204). -/
def cntForNeighbor (st : CCState) (var : Variable) (w1 : Word) (n : Variable) :
    Except PyErr Nat :=
  match overlapLookup st.overlaps n var with
  | none => .error .keyError
  | some ij =>
    match dictGet st.domains n with
    | .error e => .error e
    | .ok ws => countWs w1 ij.1 ij.2 ws 0

/-- Sum of the conflict counts over the unassigned neighbors (lines
199-204). -/
def cntLoop (st : CCState) (var : Variable) (w1 : Word) :
    List Variable → Nat → Except PyErr Nat
  | [], acc => .ok acc
  | n :: rest, acc =>
    match cntForNeighbor st var w1 n with
    | .error e => .error e
    | .ok c => cntLoop st var w1 rest (acc + c)

/-- Build the `rule_out` dict (lines 196-205) in domain iteration order. -/
def buildRuleOut (st : CCState) (var : Variable) (nbrs : List Variable) :
    List Word → Except PyErr (List (Word × Nat))
  | [] => .ok []
  | w :: rest =>
    match cntLoop st var w nbrs 0 with
    | .error e => .error e
    | .ok c =>
      match buildRuleOut st var nbrs rest with
      | .error e => .error e
      | .ok tl => .ok ((w, c) :: tl)

/-- Stable insertion of one entry when sorting `rule_out` by count
ascending: an entry goes after every earlier entry with a strictly
smaller count and before the first entry with an equal or larger count,
matching the stable `sorted(..., key=lambda item: item[1])` of line 207. -/
def insertCnt (p : Word × Nat) : List (Word × Nat) → List (Word × Nat)
  | [] => [p]
  | q :: rest => if q.2 < p.2 then q :: insertCnt p rest else p :: q :: rest

/-- Stable sort of `rule_out` by count ascending (line 207). -/
def sortCnt : List (Word × Nat) → List (Word × Nat)
  | [] => []
  | p :: rest => insertCnt p (sortCnt rest)

/-- `order_domain_values` (generate.py lines 189-210). -/
def order_domain_values (cw : Crossword) (var : Variable) (assignment : Assignment)
    (st : CCState) : Except PyErr (List Word) :=
  match dictGet st.domains var with
  | .error e => .error e
  | .ok dvar =>
    let nbrsUnassigned :=
      (neighborsSt cw st var).filter (fun n => (assignLookup assignment n).isNone)
    match buildRuleOut st var nbrsUnassigned dvar with
    | .error e => .error e
    | .ok ruleOut => .ok ((sortCnt ruleOut).map (fun p => p.1))

/-- Build the `data` dict of `select_unassigned_variable` (lines 222-226):
for each unassigned variable, the pair (remaining domain size, degree). -/
def buildSelData (cw : Crossword) (st : CCState) :
    List Variable → Except PyErr (List (Variable × (Nat × Nat)))
  | [] => .ok []
  | v :: rest =>
    match dictGet st.domains v with
    | .error e => .error e
    | .ok ws =>
      match buildSelData cw st rest with
      | .error e => .error e
      | .ok tl => .ok ((v, (ws.length, (neighborsSt cw st v).length)) :: tl)

/-- The sort key of line 229: `(remain, -degree)`. -/
def selKey (p : Variable × (Nat × Nat)) : Nat × Int :=
  (p.2.1, -(p.2.2 : Int))

/-- Strict lexicographic order on sort keys. -/
def selKeyLt (a b : Nat × Int) : Bool :=
  decide (a.1 < b.1) || (a.1 == b.1 && decide (a.2 < b.2))

/-- Stable insertion for the sort of line 232. -/
def insertSel (p : Variable × (Nat × Nat)) :
    List (Variable × (Nat × Nat)) → List (Variable × (Nat × Nat))
  | [] => [p]
  | q :: rest => if selKeyLt (selKey q) (selKey p) then q :: insertSel p rest else p :: q :: rest

/-- Stable sort of the `data` entries by `(remain, -degree)` (line 232). -/
def sortSel : List (Variable × (Nat × Nat)) → List (Variable × (Nat × Nat))
  | [] => []
  | p :: rest => insertSel p (sortSel rest)

/-- Lines 222-232 of `select_unassigned_variable`: the sorted `data` list.
The Python set difference iterates in hash order; the model fixes the
deterministic `cw.vars` order, which only permutes tied entries. -/
def selectData (cw : Crossword) (assignment : Assignment) (st : CCState) :
    Except PyErr (List (Variable × (Nat × Nat))) :=
  match buildSelData cw st (cw.vars.filter (fun v => (assignLookup assignment v).isNone)) with
  | .error e => .error e
  | .ok data => .ok (sortSel data)

/-- `select_unassigned_variable` (generate.py lines 214-240).  `choices` is
the first sorted entry together with every later entry carrying the same
`(remain, degree)` value (lines 234-238); line 240 returns
`random.choice(choices)[0]`.  The draw of the `random` module is modelled
by the extra argument `pick`, reduced modulo the number of choices, so
every possible draw corresponds to some `pick`.  `data[0]` on an empty
list raises IndexError. -/
def select_unassigned_variable (cw : Crossword) (assignment : Assignment) (st : CCState)
    (pick : Nat) : Except PyErr Variable :=
  match selectData cw assignment st with
  | .error e => .error e
  | .ok [] => .error .indexError
  | .ok (d0 :: rest) =>
    let choices := d0 :: rest.filter (fun q => q.2 == d0.2)
    .ok ((choices.getD (pick % choices.length) d0).1)

/-- `inference` (generate.py lines 243-253).  Line 246,
`self.domains_copy = self.domains`, stores a reference to the live domains
dict (not a copy); the purely functional model cannot show the sharing
itself, which is captured by the `RefStore` model below.  The `arcs` dict
collects `(neighbor, var)` entries and is passed to `ac3`. -/
def inference (cw : Crossword) (var : Variable) (st : CCState) :
    Except PyErr Bool × CCState :=
  let st1 := { st with domains_copy := some st.domains }
  let arcs := (neighborsSt cw st1 var).filterMap
    (fun n => (overlapLookup st1.overlaps n var).map (fun ij => ((n, var), ij)))
  ac3 (some arcs) st1

/-- The call `self.inference()` at generate.py line 276.  `inference` is
declared as `def inference(self, var)`, so calling it with no argument
raises `TypeError: inference() missing 1 required positional argument`
before the body runs. -/
def inferenceCallNoArg : Except PyErr Bool :=
  .error .typeError

/-- The statement `self.domain = self.domains_copy` (generate.py lines 278
and 283).  Reading `self.domains_copy` raises AttributeError when that
attribute was never assigned; otherwise the value is written to the
attribute `domain` — not `domains`, so the live domain store is left
untouched. -/
def restoreDomainAttr (st : CCState) : Except PyErr Unit × CCState :=
  match st.domains_copy with
  | none => (.error .attributeError, st)
  | some d => (.ok (), { st with domainAttr := some d })

/-- What `backtrack` can return to its caller: an assignment dict (line
268 or 281) or the literal `False` of line 285 — not `None`, although the
docstring and `main` expect `None` on failure. -/
inductive BtResult
  | assignment (a : Assignment)
  | falseResult
deriving DecidableEq

/-- Python truthiness of a `backtrack` result (`if result:` at line 280):
a dict is truthy iff nonempty, `False` is falsy. -/
def btTruthy : BtResult → Bool
  | .assignment a => !a.isEmpty
  | .falseResult => false

/-- The value loop of `backtrack` (generate.py lines 271-284), one
iteration per candidate word.  `callback` is the recursive `backtrack`
call of line 279.  Lines 277-282 are unreachable because the call at line
276 always raises TypeError, but they are kept for structure.  Line 284
restores the assignment from the copy of line 272, which the model
renders by passing the original `assignment` to the next iteration. -/
def btLoop (cw : Crossword)
    (callback : Assignment → CCState → Except PyErr BtResult × CCState) :
    List Word → Variable → Assignment → CCState → Except PyErr BtResult × CCState
  | [], _, _, st => (.ok .falseResult, st)
  | value :: rest, var, assignment, st =>
    let assignment2 := assignSet assignment var value
    match consistent cw st assignment2 with
    | .error e => (.error e, st)
    | .ok true =>
      match inferenceCallNoArg with
      | .error e => (.error e, st)
      | .ok infer =>
        match (if infer then ((Except.ok () : Except PyErr Unit), st) else restoreDomainAttr st) with
        | (.error e, st1) => (.error e, st1)
        | (.ok _, st1) =>
          match callback assignment2 st1 with
          | (.error e, st2) => (.error e, st2)
          | (.ok result, st2) =>
            if btTruthy result then (.ok result, st2)
            else
              match restoreDomainAttr st2 with
              | (.error e, st3) => (.error e, st3)
              | (.ok _, st3) => btLoop cw callback rest var assignment st3
    | .ok false =>
      match restoreDomainAttr st with
      | (.error e, st1) => (.error e, st1)
      | (.ok _, st1) => btLoop cw callback rest var assignment st1

/-- `backtrack` (generate.py lines 258-285).  The fuel argument models the
recursion limit of the Python interpreter (RecursionError when it runs
out); one unit is consumed per recursive call.  `rand` is the stream of
draws of the `random` module, consumed at `randCount`. -/
def backtrack (cw : Crossword) (rand : Nat → Nat) :
    Nat → Assignment → CCState → Except PyErr BtResult × CCState
  | 0 => fun _ st => (.error .recursionError, st)
  | fuel + 1 => fun assignment st =>
    if assignment_complete cw assignment then (.ok (.assignment assignment), st)
    else
      match select_unassigned_variable cw assignment st (rand st.randCount) with
      | .error e => (.error e, st)
      | .ok var =>
        let st1 := { st with randCount := st.randCount + 1 }
        match order_domain_values cw var assignment st1 with
        | .error e => (.error e, st1)
        | .ok values => btLoop cw (backtrack cw rand fuel) values var assignment st1

/-- The recursion limit of a default CPython interpreter. -/
def pythonRecursionLimit : Nat := 1000

/-- `solve` (generate.py lines 89-95): node consistency, then `ac3()` with
no arcs (its Boolean result is discarded — line 94 is a bare call), then
`backtrack` on the empty assignment. -/
def solve (cw : Crossword) (rand : Nat → Nat) : Except PyErr BtResult × CCState :=
  match enforce_node_consistency (initState cw) with
  | (.error e, st1) => (.error e, st1)
  | (.ok _, st1) =>
    match ac3 none st1 with
    | (.error e, st2) => (.error e, st2)
    | (.ok _, st2) => backtrack cw rand pythonRecursionLimit [] st2

/-
Reference-level model of the snapshot/restore protocol.

The purely functional state above cannot express Python reference
sharing, which is what the snapshot claim is about, so the two statements
involved are additionally modelled at the level of the object heap:
`self.domains` maps each variable to a reference (heap index) of a word
set; `self.domains[x].remove(w)` mutates the referenced cell in place
(generate.py line 128); `self.domains_copy = self.domains` (line 246)
copies only the reference map, so both maps keep pointing at the same
cells; `self.domain = self.domains_copy` (lines 278/283) writes the saved
map to the attribute `domain`, not `domains`.
-/

/-- Heap-level view of the domain store of a `CrosswordCreator`. -/
structure RefStore where
  heap : List (List Word)
  live : List (Variable × Nat)
  saved : Option (List (Variable × Nat))
  domainAttr : Option (List (Variable × Nat))
deriving DecidableEq

/-- The heap reference a map holds for a variable. -/
def refOf (m : List (Variable × Nat)) (v : Variable) : Option Nat :=
  (m.find? (fun p => p.1 == v)).map (fun p => p.2)

/-- Line 246: `self.domains_copy = self.domains` — a reference assignment,
sharing every underlying set with the live store. -/
def snapshotLine (s : RefStore) : RefStore :=
  { s with saved := some s.live }

/-- Line 128: `self.domains[x].remove(w)` — in-place mutation of the heap
cell the live map references. -/
def removeInPlace (s : RefStore) (x : Variable) (w : Word) : RefStore :=
  match refOf s.live x with
  | none => s
  | some r => { s with heap := s.heap.set r ((s.heap.getD r []).erase w) }

/-- Lines 278/283: `self.domain = self.domains_copy` — the saved map goes
to the attribute `domain`; the live `domains` map is untouched. -/
def restoreLine (s : RefStore) : RefStore :=
  { s with domainAttr := s.saved }

/-- The word set the live store currently holds for a variable. -/
def liveView (s : RefStore) (v : Variable) : Option (List Word) :=
  (refOf s.live v).map (fun r => s.heap.getD r [])

/-- The word set the saved snapshot currently holds for a variable. -/
def savedView (s : RefStore) (v : Variable) : Option (List Word) :=
  s.saved.bind (fun m => (refOf m v).map (fun r => s.heap.getD r []))

/-
Spec-level predicates used to state the claims.
-/

/-- Spec-level character access `w[k]` (no exception: `none` when out of
range). -/
def specCharAt (w : Word) (k : Nat) : Option Char :=
  w.data.get? k

/-- Spec-level arc consistency of a domain store (spec section 3): for
every overlap `(x, y) -> (p, q)`, every word in domain(x) has at least
one word in domain(y) agreeing on the shared letter. -/
def arcConsistentB (d : Domains) (ov : Overlaps) : Bool :=
  ov.all (fun e =>
    (dictGetD d e.1.1).all (fun wx =>
      (dictGetD d e.1.2).any (fun wy => specCharAt wx e.2.1 == specCharAt wy e.2.2)))

/-
Concrete inputs used by the evidence theorems and witnesses.
-/

/-- Vocabulary words used in concrete instances. -/
def wCat : Word := "cat"

def wDog : Word := "dog"

def wBird : Word := "bird"

def wTen : Word := "ten"

def wNil : Word := "nil"

def wAaa : Word := "aaa"

/-- A slot of length 3 at (0,0) going across. -/
def slotA : Variable := ⟨0, 0, Direction.across, 3⟩

/-- A slot of length 3 at (0,1) going down, crossing `slotA`. -/
def slotB : Variable := ⟨0, 1, Direction.down, 3⟩

/-- A third slot of length 3 at (2,0) going across. -/
def slotC : Variable := ⟨2, 0, Direction.across, 3⟩

/-- A slot of length 3 at (1,0) going across (no overlap with `slotA`). -/
def slotRow1 : Variable := ⟨1, 0, Direction.across, 3⟩

/-- The symmetric overlap entries for `slotA` x `slotB`: position 1 of A
meets position 0 of B. -/
def ovAB : Overlaps := [((slotA, slotB), (1, 0)), ((slotB, slotA), (0, 1))]

/-- The empty puzzle: no slots. -/
def cwEmpty : Crossword := ⟨[], [wCat], []⟩

/-- The 1-slot scenario of spec section 8: one slot of length 3,
vocabulary {cat, dog}, no overlaps. -/
def cwSingle : Crossword := ⟨[slotA], [wCat, wDog], []⟩

/-- One slot of length 3 with a wrong-length word in the vocabulary. -/
def cwBadLen : Crossword := ⟨[slotA], [wCat, wBird], []⟩

/-- The two-crossing-slots scenario of spec section 8. -/
def cwCross : Crossword := ⟨[slotA, slotB], [wCat, wTen, wNil], ovAB⟩

/-- One slot, empty vocabulary: its domain is empty from the start. -/
def cwNoWords : Crossword := ⟨[slotA], [], []⟩

/-- Two slots with equal domain sizes and equal degrees: an MRV/degree
tie. -/
def cwTie : Crossword := ⟨[slotA, slotRow1], [wCat, wDog], []⟩

/-- Three slots where `slotA` has strictly larger degree than the rest, so
the MRV/degree minimum is unique. -/
def ovDeg : Overlaps :=
  [((slotA, slotB), (0, 0)), ((slotB, slotA), (0, 0)),
   ((slotA, slotC), (1, 0)), ((slotC, slotA), (0, 1))]

/-- The crossword with the unique MRV/degree minimum. -/
def cwDegrees : Crossword := ⟨[slotA, slotB, slotC], [wAaa], ovDeg⟩

/-- Two crossing slots whose shared letter always agrees: an
arc-consistent store. -/
def cwAllA : Crossword := ⟨[slotA, slotB], [wAaa], ovAB⟩

/-- The heap-level store of the aliasing demonstration: one slot whose
domain set {cat, dog} lives in heap cell 0. -/
def refS0 : RefStore :=
  { heap := [[wCat, wDog]], live := [(slotA, 0)], saved := none, domainAttr := none }

/-
Helper lemmas.
-/

/-- `ac3` never changes any domain: it either returns True on an empty
queue or raises ValueError at line 149 before any revision; only the
overlap dict can change. -/
theorem ac3_domains_eq (arcs : Option Overlaps) (st : CCState) :
    ((ac3 arcs st).2).domains = st.domains := by
  cases arcs with
  | none => cases h : st.overlaps <;> simp [ac3, h]
  | some a =>
    cases h2 : a.isEmpty <;> cases h : st.overlaps <;> simp [ac3, h, h2]

/-- The value loop of `backtrack` can only finish with `False`: every
candidate that survives `consistent` dies at the TypeError of line 276,
and every other path either raises or falls through to line 285. -/
theorem btLoop_ok_false (cw : Crossword)
    (cb : Assignment → CCState → Except PyErr BtResult × CCState) :
    ∀ (values : List Word) (var : Variable) (assignment : Assignment) (st : CCState)
      (r : BtResult) (st2 : CCState),
      btLoop cw cb values var assignment st = (.ok r, st2) → r = .falseResult := by
  intro values
  induction values with
  | nil =>
    intro var assignment st r st2 h
    simp only [btLoop, Prod.mk.injEq, Except.ok.injEq] at h
    exact h.1.symm
  | cons value rest ih =>
    intro var assignment st r st2 h
    simp only [btLoop] at h
    cases hc : consistent cw st (assignSet assignment var value) with
    | error e => rw [hc] at h; simp at h
    | ok b =>
      rw [hc] at h
      cases b with
      | true => simp only [inferenceCallNoArg] at h; simp at h
      | false =>
        rcases hr : restoreDomainAttr st with ⟨res, st1⟩
        rw [hr] at h
        cases res with
        | error e => simp at h
        | ok u => exact ih var assignment st1 r st2 h

/-- If `backtrack` returns an assignment, it is its input assignment,
returned at line 268 because the completeness test succeeded; no deeper
path can produce one. -/
theorem backtrack_ok_assignment (cw : Crossword) (rand : Nat → Nat) (fuel : Nat)
    (assignment : Assignment) (st : CCState) (a : Assignment) (st2 : CCState)
    (h : backtrack cw rand fuel assignment st = (.ok (.assignment a), st2)) :
    a = assignment ∧ assignment_complete cw assignment = true := by
  cases fuel with
  | zero => simp [backtrack] at h
  | succ n =>
    simp only [backtrack] at h
    cases hb : assignment_complete cw assignment with
    | true =>
      rw [hb] at h
      simp only [if_true, Prod.mk.injEq, Except.ok.injEq, BtResult.assignment.injEq] at h
      exact ⟨h.1.symm, rfl⟩
    | false =>
      rw [hb] at h
      simp only [Bool.false_eq_true, if_false] at h
      split at h
      · simp at h
      · split at h
        · simp at h
        · have := btLoop_ok_false cw (backtrack cw rand n) _ _ _ _ _ _ h
          simp at this

/-
Claim theorems.
-/

/-- Claim C1: every assignment the solver returns (entry point `solve`,
over any crossword, vocabulary and stream of random draws) is total over
the slots, gives every slot a word of exactly the slot's length, and
agrees on the shared letter of every overlap.  (In this code the only
reachable success is the empty assignment of a slotless puzzle — every
other path raises — and it satisfies all three properties.) -/
theorem solve_assignment_valid (cw : Crossword) (rand : Nat → Nat) (a : Assignment)
    (h : (solve cw rand).1 = .ok (.assignment a)) :
    (∀ v ∈ cw.vars, (assignLookup a v).isSome) ∧
    (∀ p ∈ a, p.2.length = p.1.length) ∧
    (∀ e ∈ cw.overlaps, ∀ wx wy, assignLookup a e.1.1 = some wx →
      assignLookup a e.1.2 = some wy → specCharAt wx e.2.1 = specCharAt wy e.2.2) := by
  unfold solve at h
  split at h
  · simp at h
  · split at h
    · simp at h
    · rename_i b st2 heq2
      rcases h3 : backtrack cw rand pythonRecursionLimit [] st2 with ⟨r3, st3⟩
      rw [h3] at h
      replace h : r3 = Except.ok (BtResult.assignment a) := h
      subst h
      obtain ⟨ha, hc⟩ :=
        backtrack_ok_assignment cw rand pythonRecursionLimit [] st2 a st3 h3
      have hv : cw.vars = [] := by
        unfold assignment_complete at hc
        simp only [List.length_nil] at hc
        by_cases hlen : cw.vars.length = 0
        · exact List.length_eq_zero.mp hlen
        · rw [if_neg (by simpa using fun hx => hlen hx.symm)] at hc
          exact absurd hc (by simp)
      subst ha
      refine ⟨?_, ?_, ?_⟩
      · intro v hv2
        rw [hv] at hv2
        cases hv2
      · intro p hp
        cases hp
      · intro e _ wx wy hx _
        simp [assignLookup] at hx

/-- Witness for C1: on the slotless puzzle `solve` actually returns an
assignment (the empty one), and the three properties hold of it. -/
theorem solve_assignment_valid_witness :
    (solve cwEmpty (fun _ => 0)).1 = .ok (.assignment []) ∧
    ((∀ v ∈ cwEmpty.vars, (assignLookup [] v).isSome) ∧
     (∀ p ∈ ([] : Assignment), p.2.length = p.1.length) ∧
     (∀ e ∈ cwEmpty.overlaps, ∀ wx wy, assignLookup [] e.1.1 = some wx →
       assignLookup [] e.1.2 = some wy → specCharAt wx e.2.1 = specCharAt wy e.2.2)) :=
  ⟨rfl, solve_assignment_valid cwEmpty (fun _ => 0) [] rfl⟩

/-- Claim C2 is false of the code (code_bug evidence): the solver raises
instead of returning an explicit no-solution value.  On the 1-slot
scenario of spec section 8 `solve` raises TypeError (line 276 calls
`self.inference()` without its required `var` argument); on the
two-crossing-slots scenario it raises ValueError inside `ac3`; with a
wrong-length word in the vocabulary it raises RuntimeError inside
`enforce_node_consistency`. -/
theorem solve_raises_not_returns :
    (solve cwSingle (fun _ => 0)).1 = .error .typeError ∧
    (solve cwCross (fun _ => 0)).1 = .error .valueError ∧
    (solve cwBadLen (fun _ => 0)).1 = .error .runtimeError :=
  ⟨rfl, rfl, rfl⟩

/-- Claim C3 is false of the code (code_bug evidence), at the reference
level: after the snapshot of generate.py line 246 the live map and the
saved map hold the same heap reference for `slotA` (the snapshot shares
the underlying set, it is not a deep copy); an in-place domain removal is
therefore visible through the snapshot; and after the rollback statement
of line 283 the live domain is still the mutated {dog}, not the
pre-propagation {cat, dog}. -/
theorem snapshot_aliases_live_store :
    (refOf (snapshotLine refS0).live slotA = some 0 ∧
      (snapshotLine refS0).saved.bind (fun m => refOf m slotA) = some 0) ∧
    savedView (removeInPlace (snapshotLine refS0) slotA wCat) slotA = some [wDog] ∧
    liveView (restoreLine (removeInPlace (snapshotLine refS0) slotA wCat)) slotA =
      some [wDog] ∧
    liveView refS0 slotA = some [wCat, wDog] :=
  ⟨⟨rfl, rfl⟩, rfl, rfl, rfl⟩

/-- Claim C4 is false of the code (code_bug evidence): on a domain holding
{cat, bird} for a length-3 slot, `enforce_node_consistency` removes the
wrong-length word from the set it is iterating and the set iterator then
raises RuntimeError, instead of completing with domain {cat}. -/
theorem enforce_node_consistency_raises :
    (enforce_node_consistency (initState cwBadLen)).1 = .error .runtimeError ∧
    ((enforce_node_consistency (initState cwBadLen)).2).domains = [(slotA, [wCat])] :=
  ⟨rfl, rfl⟩

/-- Claim C5 is false of the code (code_bug evidence): with a nonempty arc
queue `ac3` raises ValueError at line 149 on the first iteration (so it
never returns False, however the domains look), and with an empty queue
it returns True even though a slot's domain is empty. -/
theorem ac3_never_returns_false :
    (ac3 none (initState cwCross)).1 = .error .valueError ∧
    ((ac3 none (initState cwNoWords)).1 = .ok true ∧
      dictGetD (initState cwNoWords).domains slotA = []) :=
  ⟨rfl, rfl, rfl⟩

/-- Claim C6: arc consistency only removes candidate words, never adds
any — for every slot the domain after the call is a subset of the domain
before, so its size cannot grow.  (It holds degenerately: `ac3` never
changes any domain at all, returning True on an empty queue and raising
ValueError otherwise.) -/
theorem ac3_only_removes (arcs : Option Overlaps) (st : CCState) (v : Variable) :
    dictGetD ((ac3 arcs st).2).domains v ⊆ dictGetD st.domains v ∧
    (dictGetD ((ac3 arcs st).2).domains v).length ≤ (dictGetD st.domains v).length := by
  rw [ac3_domains_eq]
  exact ⟨fun x hx => hx, Nat.le_refl _⟩

/-- Counterexample for C7: variable selection is not deterministic — with
two MRV/degree-tied slots, the draw of `random.choice` decides the
result: draw 0 selects `slotA`, draw 1 selects the other slot. -/
theorem select_depends_on_random_draw :
    select_unassigned_variable cwTie [] (initState cwTie) 0 = .ok slotA ∧
    select_unassigned_variable cwTie [] (initState cwTie) 1 = .ok slotRow1 ∧
    slotA ≠ slotRow1 :=
  ⟨rfl, rfl, by decide⟩

/-- Claim C7 as amended: selection among MRV/degree-tied slots is made by
`random.choice`, so two runs agree only when their draws agree; the
selection is independent of the random draw exactly when the tie set is
a singleton (no tie on the best (remain, degree) value). -/
theorem select_pick_independent_when_untied (cw : Crossword) (assignment : Assignment)
    (st : CCState) (d0 : Variable × (Nat × Nat)) (rest : List (Variable × (Nat × Nat)))
    (p q : Nat)
    (hdata : selectData cw assignment st = .ok (d0 :: rest))
    (hties : rest.filter (fun c => c.2 == d0.2) = []) :
    select_unassigned_variable cw assignment st p =
      select_unassigned_variable cw assignment st q := by
  unfold select_unassigned_variable
  rw [hdata]
  simp only [hties]
  simp [Nat.mod_one]

/-- Witness for the amended C7: on a puzzle whose MRV/degree minimum is
unique, draws 0 and 7 select the same slot. -/
theorem select_pick_independent_witness :
    selectData cwDegrees [] (initState cwDegrees) =
      .ok [(slotA, (1, 2)), (slotB, (1, 1)), (slotC, (1, 1))] ∧
    ([(slotB, (1, 1)), (slotC, (1, 1))] :
        List (Variable × (Nat × Nat))).filter (fun c => c.2 == (slotA, ((1 : Nat), (2 : Nat))).2) = [] ∧
    select_unassigned_variable cwDegrees [] (initState cwDegrees) 0 =
      select_unassigned_variable cwDegrees [] (initState cwDegrees) 7 :=
  ⟨rfl, rfl,
    select_pick_independent_when_untied cwDegrees [] (initState cwDegrees)
      (slotA, (1, 2)) [(slotB, (1, 1)), (slotC, (1, 1))] 0 7 rfl rfl⟩

/-- Claim C8 is false of the code (code_bug evidence): `ac3` invoked with
no arcs binds its work queue to the crossword overlap dict itself, and
the `popitem` of line 149 removes an entry from it before the ValueError
propagates — the overlap relation differs after the call, and so does the
derived neighbor relation of `slotA`. -/
theorem ac3_mutates_constraint_graph :
    ((ac3 none (initState cwCross)).2).overlaps ≠ (initState cwCross).overlaps ∧
    ((ac3 none (initState cwCross)).2).overlaps = [((slotA, slotB), (1, 0))] ∧
    neighborsSt cwCross ((ac3 none (initState cwCross)).2) slotA = [] ∧
    neighborsSt cwCross (initState cwCross) slotA = [slotB] :=
  ⟨by decide, rfl, rfl, rfl⟩

/-- Claim C9: `ac3` terminates on every input (the embedding is a total
function), a call leaves every domain unchanged — hence in particular an
already arc-consistent store is left unchanged — and running it twice
yields the same domains as running it once.  (It holds degenerately:
`ac3` never revises any domain, because any nonempty queue raises
ValueError at line 149.) -/
theorem ac3_idempotent_fixed_point (arcs : Option Overlaps) (st : CCState) :
    ((ac3 arcs st).2).domains = st.domains ∧
    ((ac3 arcs ((ac3 arcs st).2)).2).domains = ((ac3 arcs st).2).domains ∧
    (arcConsistentB st.domains st.overlaps = true →
      ((ac3 arcs st).2).domains = st.domains) :=
  ⟨ac3_domains_eq arcs st, ac3_domains_eq arcs _, fun _ => ac3_domains_eq arcs st⟩

/-- Witness for C9: a concrete arc-consistent store (two crossing slots,
single word "aaa"), for which the call indeed leaves the domains
unchanged. -/
theorem ac3_idempotent_fixed_point_witness :
    arcConsistentB (initState cwAllA).domains (initState cwAllA).overlaps = true ∧
    ((ac3 none (initState cwAllA)).2).domains = (initState cwAllA).domains :=
  ⟨by decide, (ac3_idempotent_fixed_point none (initState cwAllA)).2.2 (by decide)⟩

/-- Claim C10: `assignment_complete` judges completeness solely by entry
count — its result is exactly the Boolean comparison of the number of
assignment entries with the number of slots, so it never checks that any
individual slot occurs as a key. -/
theorem assignment_complete_counts_only (cw : Crossword) (assignment : Assignment) :
    assignment_complete cw assignment = (assignment.length == cw.vars.length) := by
  unfold assignment_complete
  cases h : (assignment.length == cw.vars.length) <;> simp [h]

end CrosswordProof
